import Mathlib

/-!
Verification development for the EmailIntentVisualizer component
(`src/EmailIntentVisualizer.jsx`).

The JavaScript source is shallowly embedded: pure fragments become Lean
functions over `String`/`Int`/`List`, the feedback ledger becomes an
association list together with an explicit object store (so that object
aliasing created by JavaScript shallow copies is visible), and the React
state becomes an explicit state record transformed by the event handlers.
Browser services that the component calls (XPath evaluation via
`document.evaluate`, text extraction via `textContent`) are passed in as
function parameters; the HTML sanitizer (the external DOMPurify library)
is modelled from the spec as an allow-list filter.

JavaScript conventions used throughout the embedding: absent object
properties are `Option.none`; `s.replace(p, '')` under a `startsWith(p)`
guard is dropping the prefix; `Math.round(x / 8)` on pixel deltas is
floor-division rounding on `Int`.
-/

set_option maxHeartbeats 1000000

/-- Boolean prefix test on character lists (JS `String.prototype.startsWith`). -/
def leadsWith : List Char → List Char → Bool
  | [], _ => true
  | _ :: _, [] => false
  | a :: as, b :: bs => a == b && leadsWith as bs

/-- JS `xpath.startsWith(pat)`. -/
def startsWithL (s pat : String) : Bool := leadsWith pat.data s.data

/-- Does the predicate hold on some suffix (including the empty one)? -/
def anySuffix (p : List Char → Bool) : List Char → Bool
  | [] => p []
  | c :: cs => p (c :: cs) || anySuffix p cs

/-- JS `s.includes(pat)` (true for the empty pattern, as in JS). -/
def strContains (s pat : String) : Bool :=
  anySuffix (fun suf => leadsWith pat.data suf) s.data

/-- Match a literal at the head of the input; on success return the rest. -/
def matchLit : List Char → List Char → Option (List Char)
  | [], l => some l
  | _ :: _, [] => none
  | a :: as, b :: bs => if a == b then matchLit as bs else none

/-- Decimal value of a digit string (JS `parseInt` on a match of `\\d+`). -/
def digitsToNat (ds : List Char) : Nat :=
  ds.foldl (fun n c => 10 * n + (c.toNat - 48)) 0

/-- Parse one or more leading digits; on success return their value and the rest. -/
def parseDigits (l : List Char) : Option (Nat × List Char) :=
  let ds := l.takeWhile Char.isDigit
  if ds.isEmpty then none else some (digitsToNat ds, l.dropWhile Char.isDigit)

/-- Does the regex `tr\\[(\\d+)\\]\\/td\\[(\\d+)\\]` match at the head of the input? -/
def trTdAt (l : List Char) : Bool :=
  match matchLit "tr[".data l with
  | none => false
  | some r1 =>
    match parseDigits r1 with
    | none => false
    | some (_, r2) =>
      match matchLit "]/td[".data r2 with
      | none => false
      | some r3 =>
        match parseDigits r3 with
        | none => false
        | some (_, r4) => (matchLit "]".data r4).isSome

/-- JS `/tr\\[(\\d+)\\]\\/td\\[(\\d+)\\]/.test(s)`. -/
def trTdTest (s : String) : Bool := anySuffix trTdAt s.data

/-- Try `marker` + digits + `]` at the head; on success return the digits' value. -/
def numAt (marker : List Char) (l : List Char) : Option Nat :=
  match matchLit marker l with
  | none => none
  | some r1 =>
    match parseDigits r1 with
    | none => none
    | some (n, r2) => if (matchLit "]".data r2).isSome then some n else none

/-- First match of `marker` + digits + `]` anywhere in the input
(JS `s.match(/tr\\[(\\d+)\\]/)` style capture). -/
def firstNumIn (marker : List Char) : List Char → Option Nat
  | [] => none
  | c :: cs =>
    match numAt marker (c :: cs) with
    | some n => some n
    | none => firstNumIn marker cs

/-- JS `s.indexOf(pat)` as an `Option` (none for "not found");
the empty pattern is found at index 0, as in JS. -/
def indexOfL (pat : List Char) : List Char → Option Nat
  | [] => if pat.isEmpty then some 0 else none
  | c :: cs =>
    if leadsWith pat (c :: cs) then some 0
    else (indexOfL pat cs).map (· + 1)

/-- JS `s.trim()`. -/
def trimStr (s : String) : String :=
  ⟨((s.data.dropWhile Char.isWhitespace).reverse.dropWhile Char.isWhitespace).reverse⟩

/-- JS `s.substring(0, n)` for a natural bound. -/
def takeStr (s : String) (n : Nat) : String := ⟨s.data.take n⟩

/-- Drop the first `n` characters of a string. -/
def dropStr (s : String) (n : Nat) : String := ⟨s.data.drop n⟩

/-- Strip a leading literal if present (JS `s.replace(pat, '')` guarded by
`s.startsWith(pat)`). -/
def stripLead (s pat : String) : String :=
  if startsWithL s pat then dropStr s pat.length else s

/-- A single-quote character, used when rebuilding the table XPath variant. -/
def sqChar : String := "\x27"

/-- Order-preserving de-duplication (JS `[...new Set(arr)]`). -/
def dedupAux (seen : List String) : List String → List String
  | [] => []
  | x :: xs => if seen.contains x then dedupAux seen xs else x :: dedupAux (x :: seen) xs

/-- JS `[...new Set(arr)]`: keep the first occurrence of each element. -/
def dedupStr (l : List String) : List String := dedupAux [] l

/-- JS `s.substring(a, b)`: clamp both arguments into `[0, length]` and swap
them when out of order. -/
def jsSubstring (s : String) (a b : Int) : String :=
  let len : Int := s.length
  let a1 := min (max a 0) len
  let b1 := min (max b 0) len
  let lo := min a1 b1
  let hi := max a1 b1
  ⟨(s.data.drop lo.toNat).take (hi.toNat - lo.toNat)⟩

/-- JS `Math.round(x / 8)` for an integer pixel delta `x`
(`approxCharWidth = 8` in `handleDrag`); `Math.round` is
floor of `x/8 + 1/2`. -/
def jsRound8 (x : Int) : Int := Int.fdiv (2 * x + 8) 16

/-- An evidence-span object. One structure covers both encodings in the
source: structural spans (`xpath`/`relative_start`/`relative_end`) and flat
spans (`start`/`end`), plus the `original_*` back-reference fields added by
`applySpanEdit`. Absent JS properties are `none`; the JS property `end` is
named `endOfs` here because `end` is a Lean keyword. -/
structure SpanObj where
  id : Option String := none
  xpath : Option String := none
  relative_start : Option Int := none
  relative_end : Option Int := none
  start : Option Int := none
  endOfs : Option Int := none
  text : Option String := none
  type : Option String := none
  field : Option String := none
  original_xpath : Option String := none
  original_relative_start : Option Int := none
  original_relative_end : Option Int := none
  original_start : Option Int := none
  original_end : Option Int := none
deriving DecidableEq

/-- The all-absent span object. -/
def defaultSpan : SpanObj := {}

/-- JS object spread `{...b, ...h}`: every property present on `h` overrides
the one on `b`. -/
def mergeSpan (b h : SpanObj) : SpanObj :=
  { id := h.id <|> b.id,
    xpath := h.xpath <|> b.xpath,
    relative_start := h.relative_start <|> b.relative_start,
    relative_end := h.relative_end <|> b.relative_end,
    start := h.start <|> b.start,
    endOfs := h.endOfs <|> b.endOfs,
    text := h.text <|> b.text,
    type := h.type <|> b.type,
    field := h.field <|> b.field,
    original_xpath := h.original_xpath <|> b.original_xpath,
    original_relative_start := h.original_relative_start <|> b.original_relative_start,
    original_relative_end := h.original_relative_end <|> b.original_relative_end,
    original_start := h.original_start <|> b.original_start,
    original_end := h.original_end <|> b.original_end }

/-- Table-specific XPath variants pushed by `applyHighlights` when the
captured path mentions a table (`EmailIntentVisualizer.jsx`, lines 176-190):
a `contains(text(), ...)` form built from the span's text, and, when the
path matches `tr[i]/td[j]`, the `//table/tr[i]/td[j]` form rebuilt from the
first `tr[...]` and `td[...]` numbers in the path. -/
def tableVariantsOf (xpath t : String) : List String :=
  if strContains xpath "table" then
    ("//table//tr//td[contains(text(), " ++ sqChar ++ t ++ sqChar ++ ")]") ::
    (if trTdTest xpath then
      match firstNumIn "tr[".data xpath.data, firstNumIn "td[".data xpath.data with
      | some a, some b => ["//table/tr[" ++ toString a ++ "]/td[" ++ toString b ++ "]"]
      | _, _ => []
    else [])
  else []

/-- The `simplePath` computed by `applyHighlights` (lines 199-205): strip a
leading `/html/body`, replace an empty result by `.`, then drop a leading
slash to make the path relative. -/
def simplifiedOf (xpath : String) : String :=
  let sp0 := if startsWithL xpath "/html/body" then dropStr xpath 10 else xpath
  let sp1 := if sp0 = "" then "." else sp0
  if startsWithL sp1 "/" then dropStr sp1 1 else sp1

/-- The ordered candidate list `xpathVariations` built by `applyHighlights`
(lines 165-211): body-stripped variant (plus table variants) first, then the
`/html`-stripped variant, then the simplified relative path, and the
original captured path last, de-duplicated preserving order. -/
def xpathVariations (xpath t : String) : List String :=
  dedupStr
    ((if startsWithL xpath "/html/body" then dropStr xpath 10 :: tableVariantsOf xpath t else []) ++
     (if startsWithL xpath "/html" then [dropStr xpath 5] else []) ++
     [simplifiedOf xpath, xpath])

/-- The trial loop of `applyHighlights` (lines 219-253): for each candidate,
evaluate against the rendering root first, then against the whole document,
and short-circuit on the first candidate that yields a node. `evalRoot` and
`evalDoc` stand for `document.evaluate` against the wrapper element and the
document; nodes are abstract identifiers. -/
def tryXPathList (evalRoot evalDoc : String → Option Nat) : List String → Option Nat
  | [] => none
  | x :: xs =>
    match evalRoot x with
    | some n => some n
    | none =>
      match evalDoc x with
      | some n => some n
      | none => tryXPathList evalRoot evalDoc xs

/-- XPath resolution for one span, as implemented by `applyHighlights`. -/
def resolveSpanNode (evalRoot evalDoc : String → Option Nat) (xpath t : String) : Option Nat :=
  tryXPathList evalRoot evalDoc (xpathVariations xpath t)

/-- Transcription of the spec's stated matching order for claim C5:
"exact path > root-stripped path > body-stripped path", each candidate
evaluated against the rendering root and then against the whole document,
short-circuiting on the first non-empty match. Written from the spec's
words, for comparison with `resolveSpanNode`. -/
def specMatchingOrderResolve (evalRoot evalDoc : String → Option Nat) (xpath : String) :
    Option Nat :=
  tryXPathList evalRoot evalDoc
    [xpath, stripLead xpath "/html", stripLead xpath "/html/body"]

/-- The text-search adjustment of `applyHighlights` (lines 314-340): when the
span carries a non-empty `text`, the first verbatim occurrence in the node's
text content overrides the declared offsets; failing that, the trimmed text
is searched; failing that, when the trimmed text exceeds 5 characters, a
15-character bounded piece of it is searched; otherwise the declared
(clamped) offsets are kept. -/
def textSearchAdjust (tc : String) (fallback : Int × Int) (sptext : Option String) : Int × Int :=
  match sptext with
  | none => fallback
  | some t =>
    if t = "" then fallback
    else
      match indexOfL t.data tc.data with
      | some i => ((i : Int), (i : Int) + (t.length : Int))
      | none =>
        let tr := trimStr t
        match indexOfL tr.data tc.data with
        | some i => ((i : Int), (i : Int) + (tr.length : Int))
        | none =>
          if tr.length > 5 then
            let pt := takeStr tr 15
            match indexOfL pt.data tc.data with
            | some i => ((i : Int), (i : Int) + (pt.length : Int))
            | none => fallback
          else fallback

/-- The text locator of `applyHighlights` (lines 299-349): starting from the
declared offsets (defaulted, clamped to the text length), apply the
text-search adjustment, then skip the span (return `none`) when the final
range is degenerate (`start ≥ end`, `end ≤ 0`, or `end >` length). `tc` is
the resolved text node's `textContent`. -/
def locateRange (tc : String) (sp : SpanObj) : Option (Int × Int) :=
  let len : Int := tc.length
  let rs0 : Int := max 0 (sp.relative_start.getD 0)
  let re0 : Int :=
    match sp.relative_end with
    | some e => e
    | none =>
      match sp.text with
      | some t => if t = "" then len else rs0 + (t.length : Int)
      | none => len
  let p := textSearchAdjust tc (min rs0 len, min re0 len) sp.text
  if p.1 ≥ p.2 ∨ p.2 ≤ 0 ∨ p.2 > len then none else some p

/-- The interactive element produced by `createSpanElement`
(`EmailIntentVisualizer.jsx`, lines 104-145): class list, identifying
dataset entries, the clickability flag (a dataset string, as in the DOM),
tooltip, and whether resize handles were attached. -/
structure SpanElement where
  className : String
  spanId : String
  spanType : String
  fieldName : String
  clickable : String
  title : String
  hasResizeHandles : Bool
  spanText : String
deriving DecidableEq

/-- `createSpanElement` (lines 104-145). `editMode` is the edit-mode value
captured by the handler's closure; `readOnly` is not consulted anywhere in
this function. -/
def createSpanElement (editMode : Bool) (text : String) (isActive : Bool)
    (spanId spanType : String) (fieldName : Option String) : SpanElement :=
  { className := "evidence-span evidence-" ++ spanType ++ " " ++ (if isActive then "active" else ""),
    spanId := spanId,
    spanType := spanType,
    fieldName := fieldName.getD "",
    clickable := if !editMode then "true" else "false",
    title :=
      if spanType = "intent" then "Intent Evidence"
      else if spanType = "action" then "Action Evidence"
      else if spanType = "artefact_type" then "Artefact Type Evidence"
      else if spanType = "artefact_detail" then "Artefact Detail: " ++ fieldName.getD ""
      else "",
    hasResizeHandles := editMode && isActive,
    spanText := text }

/-- Transcription of the spec's words for claim C10: the clickability flag
is "false when the viewer is read-only or not in edit mode", hence true only
when editable and in edit mode. Written from the spec, for comparison with
`createSpanElement`. -/
def specClickableFlag (readOnly editMode : Bool) : Bool := !readOnly && editMode

/-- `handleDrag`, start handle (lines 909-919): the new start offset into the
span's original text, `Math.max(0, Math.min(charDiff, text.length - 1))`. -/
def dragNewStart (text : String) (charDiff : Int) : Int :=
  max 0 (min charDiff ((text.length : Int) - 1))

/-- `handleDrag`, end handle (lines 920-931): the new end offset into the
span's original text, `Math.max(1, Math.min(text.length, text.length - charDiff))`. -/
def dragNewEnd (text : String) (charDiff : Int) : Int :=
  max 1 (min (text.length : Int) ((text.length : Int) - charDiff))

/-- `handleDragEnd` (lines 935-968), the committed span update: for a start
drag, `relative_start += newStartOffset` and the text keeps only the part
from `newStartOffset` on; for an end drag, `relative_end = relative_start +
newEndOffset` and the text keeps only the first `newEndOffset` characters.
An arithmetic step on an absent offset is modelled as leaving it absent. -/
def handleDragEndCommit (origSpan : SpanObj) (spanText : String) (handleType : String)
    (newStartOffset newEndOffset : Option Int) : SpanObj :=
  if handleType = "start" then
    match newStartOffset with
    | some ns =>
      { origSpan with
        relative_start := origSpan.relative_start.map (fun v => v + ns),
        text := some (jsSubstring spanText ns (spanText.length : Int)) }
    | none => origSpan
  else if handleType = "end" then
    match newEndOffset with
    | some ne =>
      { origSpan with
        relative_end := origSpan.relative_start.map (fun v => v + ne),
        text := some (jsSubstring spanText 0 ne) }
    | none => origSpan
  else origSpan

/-- A node of the rendered HTML document: a text node, or an element with a
tag, attributes and children. Email content enters the component as a
string and is parsed by the browser; here it is represented directly in
parsed form. -/
inductive HNode where
  | text (s : String)
  | elem (tag : String) (attrs : List (String × String)) (children : List HNode)

/-- Modelled from the spec: the tag allow-list of the HTML sanitization step
("only known-safe tags/attributes retained"); the sanitizer itself is the
external DOMPurify library, not repository code. -/
def safeTagList : List String :=
  ["a", "b", "blockquote", "br", "div", "em", "h1", "h2", "h3", "h4", "h5", "h6",
   "i", "img", "li", "ol", "p", "span", "strong", "table", "tbody", "td", "th",
   "thead", "tr", "u", "ul"]

/-- Modelled from the spec: the attribute allow-list of the HTML
sanitization step; event-handler attributes such as `onerror` are not in it. -/
def safeAttrList : List String :=
  ["alt", "class", "colspan", "height", "href", "id", "rowspan", "src", "style",
   "title", "width"]

mutual
/-- Modelled from the spec: HTML sanitization of one node (DOMPurify) —
script/style subtrees are dropped entirely, elements with unknown tags are
replaced by their sanitized children, and only allow-listed attributes are
retained. -/
def sanitizeNode : HNode → List HNode
  | HNode.text s => [HNode.text s]
  | HNode.elem tag attrs children =>
    if tag == "script" || tag == "style" then []
    else if safeTagList.contains tag then
      [HNode.elem tag (attrs.filter (fun p => safeAttrList.contains p.1)) (sanitizeList children)]
    else sanitizeList children

/-- Modelled from the spec: HTML sanitization of a node list. -/
def sanitizeList : List HNode → List HNode
  | [] => []
  | n :: ns => sanitizeNode n ++ sanitizeList ns
end

mutual
/-- Does this node or any descendant carry an attribute with the given name? -/
def nodeHasAttr : HNode → String → Bool
  | HNode.text _, _ => false
  | HNode.elem _ attrs children, a =>
    attrs.any (fun p => p.1 == a) || nodesHaveAttr children a

/-- Does any node of the list (or a descendant) carry the attribute? -/
def nodesHaveAttr : List HNode → String → Bool
  | [], _ => false
  | n :: ns, a => nodeHasAttr n a || nodesHaveAttr ns a
end

/-- The wrapper div built by the HTML re-render effect
(`EmailIntentVisualizer.jsx`, lines 810-824): a `div.email-html-wrapper`
whose children are clones of the parsed body's child nodes (`cloneNode(true)`
preserves tags, attributes and text, so a clone is the same value here). -/
def buildWrapper (content : List HNode) : HNode :=
  HNode.elem "div" [("class", "email-html-wrapper")] content

/-- The HTML render path of `renderEmailContent` (lines 1029-1037): the
email body is placed via `dangerouslySetInnerHTML={createSafeHtml(emailContent)}`,
i.e. the content passes through the sanitizer. `content` is the parsed body. -/
def initialRenderInserted (content : List HNode) : List HNode :=
  sanitizeList content

/-- The HTML re-render effect (lines 793-839): `emailBodyRef.current.innerHTML`
is cleared and a wrapper filled with clones of the freshly parsed raw
`emailContent` is appended. No sanitization step occurs on this path. -/
def rerenderInserted (content : List HNode) : List HNode :=
  [buildWrapper content]

/-- One highlight produced for a span: the resolved node and the located
character range, the "render instruction" view of the inline split that
`applyHighlights` performs. -/
structure HighlightInstr where
  node : Nat
  hstart : Int
  hend : Int
deriving DecidableEq

/-- The contents of the email-body container plus the highlights currently
applied to it. -/
structure RenderedDoc where
  nodes : List HNode
  highlights : List HighlightInstr

/-- The highlights `applyHighlights` (lines 153-388) produces for a span
list: per span, resolve the XPath (skipping spans without one — in the
source a missing `xpath` throws inside the per-span `try` and the span is
skipped), read the resolved node's text content, locate the range, and skip
the span on any failure. `getText` stands for
`findFirstTextNode(node).textContent`. A span with no `text` contributes
the string "undefined" to the table variant, as a JS template literal does. -/
def applyHighlightInstrs (evalRoot evalDoc : String → Option Nat)
    (getText : Nat → Option String) (spans : List SpanObj) : List HighlightInstr :=
  spans.filterMap (fun sp =>
    match sp.xpath with
    | none => none
    | some xp =>
      match resolveSpanNode evalRoot evalDoc xp (sp.text.getD "undefined") with
      | none => none
      | some nd =>
        match getText nd with
        | none => none
        | some tc =>
          match locateRange tc sp with
          | none => none
          | some r => some { node := nd, hstart := r.1, hend := r.2 })

/-- The HTML re-render effect (lines 793-839) as a transformer of the
email-body state: clear the container (`innerHTML = ''`, dropping every
existing highlight element), append the wrapper built from the freshly
parsed content, and apply the highlights of the selected prediction's
spans. `evalRoot`/`evalDoc`/`getText` are the browser lookups against the
fresh wrapper and document. -/
def htmlRerenderEffect (evalRoot evalDoc : String → Option Nat)
    (getText : Nat → Option String) (content : List HNode) (spans : List SpanObj)
    (_st : RenderedDoc) : RenderedDoc :=
  let cleared : RenderedDoc := { nodes := [], highlights := [] }
  { nodes := cleared.nodes ++ [buildWrapper content],
    highlights := applyHighlightInstrs evalRoot evalDoc getText spans }

/-- The object store: JavaScript span objects live here and are referred to
by index. `[...prediction.evidence_spans]` copies the list of references but
shares the objects, which is exactly what this representation captures. -/
abbrev Store := List SpanObj

/-- A prediction (the fields `applySpanEdit` reads): its identity and its
evidence list, a list of references into the store. Predictions are
immutable inputs. -/
structure Prediction where
  prediction_id : String
  evidence_spans : List Nat
deriving DecidableEq

/-- The `corrected_value` of a correction record:
`{ ...selectedPrediction, evidence_spans: [...] }` — the prediction's fields
with the evidence list replaced by the record's own list of references. -/
structure CorrectedValue where
  prediction_id : String
  spans : List Nat
deriving DecidableEq

/-- One entry of the feedback ledger (`feedbackData[predictionId]`). -/
structure CorrectionRecord where
  prediction_id : String
  corrected_value : CorrectedValue
deriving DecidableEq

/-- The feedback ledger `feedbackData`: a JS object keyed by prediction id,
modelled as an insertion-ordered association list without duplicate keys. -/
abbrev Ledger := List (String × CorrectionRecord)

/-- JS `feedbackData[k]`. -/
def ledgerLookup (fb : Ledger) (k : String) : Option CorrectionRecord :=
  (fb.find? (fun e => e.1 == k)).map (fun e => e.2)

/-- JS `feedbackData[k] = r`: overwrite in place, or append a new key. -/
def ledgerStore (fb : Ledger) (k : String) (r : CorrectionRecord) : Ledger :=
  if (fb.find? (fun e => e.1 == k)).isSome then
    fb.map (fun e => if e.1 == k then (k, r) else e)
  else fb ++ [(k, r)]

/-- The `findIndex` predicate of `applySpanEdit` for HTML content (lines
550-554): the entry's own `xpath`, `relative_start` and `relative_end`
strictly equal the active span's (JS `===`; `undefined === undefined` is
true, as is `none == none` here). -/
def spanMatchesHtml (st : Store) (a : SpanObj) (r : Nat) : Bool :=
  match st[r]? with
  | some o =>
    o.xpath == a.xpath && o.relative_start == a.relative_start &&
      o.relative_end == a.relative_end
  | none => false

/-- The `findIndex` predicate of `applySpanEdit` for plain text (lines
575-577): the entry's own `start` and `end` equal the active span's. -/
def spanMatchesText (st : Store) (a : SpanObj) (r : Nat) : Bool :=
  match st[r]? with
  | some o => o.start == a.start && o.endOfs == a.endOfs
  | none => false

/-- The correction object pushed by `applySpanEdit` for HTML content (lines
564-570): the candidate's fields plus a fresh id `corrected-<timestamp>` and
the `original_*` back-reference to the active span. `ts` is the
`Date.now()` timestamp. -/
def mkCorrectedHtml (h a : SpanObj) (ts : String) : SpanObj :=
  { h with
    id := some ("corrected-" ++ ts),
    original_xpath := a.xpath,
    original_relative_start := a.relative_start,
    original_relative_end := a.relative_end }

/-- The correction object pushed by `applySpanEdit` for plain text (lines
587-592). -/
def mkCorrectedText (h a : SpanObj) (ts : String) : SpanObj :=
  { h with
    id := some ("corrected-" ++ ts),
    original_start := a.start,
    original_end := a.endOfs }

/-- The net-new span pushed by `applySpanEdit` when no span is being edited
(lines 597-600): the candidate plus a fresh id `new-<timestamp>`. -/
def mkNewSpan (h : SpanObj) (ts : String) : SpanObj :=
  { h with id := some ("new-" ++ ts) }

/-- `applySpanEdit` (`EmailIntentVisualizer.jsx`, lines 529-608). Inputs:
the object store, the ledger, the selected prediction, `activeSpan`,
`highlightedText`, `isHtmlContent`, and the `Date.now()` timestamp. If no
record exists for the prediction, one is created whose evidence list copies
the prediction's reference list (sharing the span objects). When editing an
existing span, the record's list is searched for an entry whose own identity
fields equal the active span's; a hit is replaced by a freshly allocated
merged object (`{...old, ...highlightedText}` assigned into the array slot),
a miss appends a freshly allocated correction carrying the back-reference.
Without an active span a net-new span is appended. The HTML and plain-text
branches differ only in the identity fields and back-reference fields used,
and are merged here with `isHtml` selecting between them. Returns the new
store and ledger; the state resets performed afterwards
(`setEditMode(false)` etc.) are part of the controller model. -/
def applySpanEdit (st : Store) (fb : Ledger) (pred : Prediction)
    (activeSpan highlighted : Option SpanObj) (isHtml : Bool) (ts : String) :
    Store × Ledger :=
  match highlighted with
  | none => (st, fb)
  | some h =>
    let rcd : CorrectionRecord :=
      match ledgerLookup fb pred.prediction_id with
      | some r => r
      | none =>
        { prediction_id := pred.prediction_id,
          corrected_value := { prediction_id := pred.prediction_id, spans := pred.evidence_spans } }
    let spans := rcd.corrected_value.spans
    let next : Store × List Nat :=
      match activeSpan with
      | some a =>
        match spans.findIdx? (fun r => if isHtml then spanMatchesHtml st a r else spanMatchesText st a r) with
        | some i =>
          let oldObj :=
            match spans[i]? with
            | some r =>
              match st[r]? with
              | some o => o
              | none => defaultSpan
            | none => defaultSpan
          (st ++ [mergeSpan oldObj h], spans.set i st.length)
        | none =>
          let c := if isHtml then mkCorrectedHtml h a ts else mkCorrectedText h a ts
          (st ++ [c], spans ++ [st.length])
      | none => (st ++ [mkNewSpan h ts], spans ++ [st.length])
    (next.1,
     ledgerStore fb pred.prediction_id
       { rcd with corrected_value := { rcd.corrected_value with spans := next.2 } })

/-- The span objects currently in a prediction's correction record, read
through the store. -/
def ledgerSpanValues (st : Store) (fb : Ledger) (pid : String) : List SpanObj :=
  match ledgerLookup fb pid with
  | some r => r.corrected_value.spans.filterMap (fun ref => st[ref]?)
  | none => []

/-- Outcome of one call to the feedback sink (`onFeedbackSubmit`): a
synchronous exception, or a normal return whose eventual promise outcome is
`resolved` (true = fulfilled, false = rejected). -/
inductive SinkBehavior where
  | throws
  | returns (resolved : Bool)
deriving DecidableEq

/-- The component state touched by the controller handlers. -/
structure VisualizerState where
  selectedPrediction : Option Prediction
  activeSpan : Option SpanObj
  editMode : Bool
  feedbackData : Ledger
  highlightedText : Option SpanObj
  selectionMode : Bool
deriving DecidableEq

/-- Result of running `handleSubmitFeedback`: the state afterwards and the
list of arguments the sink was called with. -/
structure SubmitResult where
  state : VisualizerState
  calls : List Ledger
deriving DecidableEq

/-- `handleSubmitFeedback` (lines 628-638): bail out on an empty ledger;
otherwise call the sink once with the whole ledger. A synchronous throw
propagates before any state reset runs; a normal return (whatever its
promise later does) is followed by clearing the ledger, the selection, the
active span and edit mode. -/
def handleSubmitFeedback (sink : Ledger → SinkBehavior) (st : VisualizerState) : SubmitResult :=
  if st.feedbackData.isEmpty then { state := st, calls := [] }
  else
    match sink st.feedbackData with
    | SinkBehavior.throws => { state := st, calls := [st.feedbackData] }
    | SinkBehavior.returns _ =>
      { state :=
          { st with
            feedbackData := [],
            selectedPrediction := none,
            activeSpan := none,
            editMode := false },
        calls := [st.feedbackData] }

/-- `handlePredictionSelect` (lines 46-55): select the card, clear the
active span, leave edit mode. (The DOM class cleanup on the cards has no
bearing on this state.) -/
def handlePredictionSelect (st : VisualizerState) (p : Prediction) : VisualizerState :=
  { st with selectedPrediction := some p, activeSpan := none, editMode := false }

/-- `cancelSpanEdit` (lines 621-625): leave edit mode, drop the pending
candidate, leave selection mode. The active span is not touched. -/
def cancelSpanEdit (st : VisualizerState) : VisualizerState :=
  { st with editMode := false, highlightedText := none, selectionMode := false }

/-- An original HTML evidence span (stored at reference 0 in the examples). -/
def exSpanS : SpanObj :=
  { id := some "s0", xpath := some "/html/body/p[1]", relative_start := some 0,
    relative_end := some 5, text := some "hello", type := some "intent" }

/-- A prediction whose only evidence span is `exSpanS` (reference 0). -/
def exPred : Prediction := { prediction_id := "p1", evidence_spans := [0] }

/-- First edit candidate for `exSpanS`: the end offset moved from 5 to 7. -/
def exEdit1 : SpanObj := { exSpanS with relative_end := some 7, text := some "hello w" }

/-- Second edit candidate for `exSpanS`: the end offset moved to 9. -/
def exEdit2 : SpanObj := { exSpanS with relative_end := some 9, text := some "hello wor" }

/-- Store and ledger after the first edit to `exSpanS`. -/
def exRun1 : Store × Ledger :=
  applySpanEdit [exSpanS] [] exPred (some exSpanS) (some exEdit1) true "t1"

/-- Store and ledger after the second edit to the same `exSpanS`. -/
def exRun2 : Store × Ledger :=
  applySpanEdit exRun1.1 exRun1.2 exPred (some exSpanS) (some exEdit2) true "t2"

/-- The correction entry the second edit appends: the second candidate plus
a fresh id and the back-reference to `exSpanS`. -/
def exCorr2 : SpanObj :=
  { exEdit2 with
    id := some "corrected-t2",
    original_xpath := some "/html/body/p[1]",
    original_relative_start := some 0,
    original_relative_end := some 5 }

/-- A parsed HTML email body carrying an event-handler attribute:
`<img src="x" onerror="alert(1)">`. -/
def exHtmlContent : List HNode :=
  [HNode.elem "img" [("src", "x"), ("onerror", "alert(1)")] []]

/-- A correction record for the submit examples. -/
def exRecord : CorrectionRecord :=
  { prediction_id := "p1", corrected_value := { prediction_id := "p1", spans := [0] } }

/-- A component state with a non-empty ledger and an active span. -/
def exState : VisualizerState :=
  { selectedPrediction := some exPred, activeSpan := some exSpanS, editMode := true,
    feedbackData := [("p1", exRecord)], highlightedText := some exEdit1,
    selectionMode := false }

/-- A sink whose call returns normally but whose promise is rejected. -/
def exSinkRejected : Ledger → SinkBehavior := fun _ => SinkBehavior.returns false

/-- A sink whose call returns normally and whose promise is fulfilled. -/
def exSinkOk : Ledger → SinkBehavior := fun _ => SinkBehavior.returns true

/-- The active span of the drag example: text `hello world` at offsets
5 to 16. -/
def exDragSpan : SpanObj :=
  { id := some "s1", xpath := some "/html/body/p[1]", relative_start := some 5,
    relative_end := some 16, text := some "hello world", type := some "intent" }

/-- The committed span after dragging the end handle 24 pixels to the right
(three characters at the fixed 8px character width) and releasing. -/
def exDragCommitted : SpanObj :=
  handleDragEndCommit exDragSpan "hello world" "end" none
    (some (dragNewEnd "hello world" (jsRound8 24)))

/-- An XPath evaluation environment (for the resolver examples) in which the
verbatim captured path and the body-stripped path both match against the
rendering root, but different nodes. -/
def exEvalRoot : String → Option Nat := fun s =>
  if s = "/html/body/p[1]" then some 1 else if s = "/p[1]" then some 2 else none

/-- The document-wide evaluation of the resolver examples: nothing matches. -/
def exEvalDoc : String → Option Nat := fun _ => none

/-- A span whose declared text also occurs before its declared offsets:
text `ab` declared at offsets 3 to 5 of a node whose text content is
`ab ab`. -/
def exLocSpan : SpanObj :=
  { relative_start := some 3, relative_end := some 5, text := some "ab" }

/-- A span whose declared offsets disagree with its declared text `world`;
the text's first occurrence in `hello world` starts at 6. -/
def exLocSpanW : SpanObj :=
  { relative_start := some 0, relative_end := some 3, text := some "world" }

theorem leadsWithAppendSelf (p r : List Char) : leadsWith p (p ++ r) = true := by
  induction p with
  | nil => rfl
  | cons a as ih => simp [leadsWith, ih]

theorem leadsWithOfAppend (p q : List Char) :
    ∀ s : List Char, leadsWith (p ++ q) s = true → leadsWith p s = true := by
  induction p with
  | nil => intro s _; rfl
  | cons a as ih =>
    intro s hs
    cases s with
    | nil => simp [leadsWith] at hs
    | cons b bs =>
      simp only [List.cons_append, leadsWith, Bool.and_eq_true] at hs ⊢
      exact ⟨hs.1, ih bs hs.2⟩

theorem startsWithHtmlOfHtmlBody (s : String) (h : startsWithL s "/html/body" = true) :
    startsWithL s "/html" = true := by
  unfold startsWithL at h ⊢
  have hsplit : "/html/body".data = "/html".data ++ "/body".data := by decide
  rw [hsplit] at h
  exact leadsWithOfAppend "/html".data "/body".data s.data h

theorem leadsWithLengthLe (p : List Char) :
    ∀ l : List Char, leadsWith p l = true → p.length ≤ l.length := by
  induction p with
  | nil => intro l _; simp
  | cons a as ih =>
    intro l hl
    cases l with
    | nil => simp [leadsWith] at hl
    | cons b bs =>
      simp only [leadsWith, Bool.and_eq_true] at hl
      simpa using ih bs hl.2

theorem indexOfLBound (p : List Char) :
    ∀ (l : List Char) (n : Nat), indexOfL p l = some n → n + p.length ≤ l.length := by
  intro l
  induction l with
  | nil =>
    intro n h
    unfold indexOfL at h
    by_cases hp : p.isEmpty
    · simp only [hp, if_true] at h
      cases h
      simp_all [List.isEmpty_iff]
    · simp [hp] at h
  | cons c cs ih =>
    intro n h
    unfold indexOfL at h
    by_cases hl : leadsWith p (c :: cs) = true
    · rw [if_pos hl] at h
      cases h
      simpa using leadsWithLengthLe p (c :: cs) hl
    · rw [if_neg hl] at h
      rcases Option.map_eq_some'.mp h with ⟨m, hm, rfl⟩
      have := ih m hm
      simp only [List.length_cons]
      omega

/-- Claim C1. The claim states that two edits targeting the same evidence
span S leave exactly one CorrectedSpan for S in the prediction's correction
record. The code violates this: the `findIndex` in `applySpanEdit` matches
entries by their own current `xpath`/`relative_start`/`relative_end`, so the
first edit overwrites S's copy in place (leaving no `original_*`
back-reference), and a second edit — whose active span still carries S's
original offsets — misses that overwritten entry and appends a second one.
Concretely: `exSpanS` (offsets 0-5) edited to end 7 and then to end 9 leaves
the record's evidence list `[exEdit1, exCorr2]` — two entries produced by
edits to the single original span, neither equal to the original. -/
theorem applySpanEditSecondEditDuplicates :
    ledgerSpanValues exRun2.1 exRun2.2 "p1" = [exEdit1, exCorr2] ∧
    (ledgerSpanValues exRun2.1 exRun2.2 "p1").countP (fun o => !(o == exSpanS)) = 2 := by
  decide

/-- Claim C2. The claim states that every path placing HTML content into the
live document sanitizes it first. The initial render does
(`initialRenderInserted`), but the HTML re-render effect (lines 793-839)
clears the container and inserts a wrapper filled with clones of the raw
parsed content, bypassing the sanitizer: for the body
`<img src="x" onerror="alert(1)">` the inserted tree still carries the
`onerror` event-handler attribute, which sanitization would strip. -/
theorem rerenderBypassesSanitization :
    nodesHaveAttr (rerenderInserted exHtmlContent) "onerror" = true ∧
    nodesHaveAttr (initialRenderInserted exHtmlContent) "onerror" = false ∧
    nodesHaveAttr (sanitizeList (rerenderInserted exHtmlContent)) "onerror" = false := by
  decide

/-- Claim C3, counterexample. The claim states that when the sink fails
("rejects or throws") the ledger is left byte-identical. For a sink whose
call returns normally but whose promise is rejected, `handleSubmitFeedback`
clears the ledger anyway (it never awaits the result): starting from the
non-empty ledger of `exState`, the post-submit ledger is empty. -/
theorem submitRejectedSinkClearsLedger :
    (handleSubmitFeedback exSinkRejected exState).state.feedbackData = [] ∧
    (handleSubmitFeedback exSinkRejected exState).state.feedbackData ≠
      exState.feedbackData := by
  decide

/-- Claim C3, amended: `handleSubmitFeedback` on a non-empty ledger hands
the whole ledger to the sink in exactly one call; if the sink throws
synchronously the entire state (ledger included) is left untouched; if the
call returns normally — whether its promise is later fulfilled or rejected —
the ledger is cleared. -/
theorem handleSubmitFeedbackLedgerContract (st : VisualizerState)
    (sink : Ledger → SinkBehavior) (hne : st.feedbackData ≠ []) :
    (handleSubmitFeedback sink st).calls = [st.feedbackData] ∧
    (sink st.feedbackData = SinkBehavior.throws → (handleSubmitFeedback sink st).state = st) ∧
    (∀ b, sink st.feedbackData = SinkBehavior.returns b →
      (handleSubmitFeedback sink st).state.feedbackData = []) := by
  have hempty : st.feedbackData.isEmpty = false := by
    cases h : st.feedbackData with
    | nil => exact absurd h hne
    | cons a l => rfl
  refine ⟨?_, ?_, ?_⟩
  · cases hs : sink st.feedbackData <;> simp [handleSubmitFeedback, hempty, hs]
  · intro hs; simp [handleSubmitFeedback, hempty, hs]
  · intro b hs; simp [handleSubmitFeedback, hempty, hs]

/-- Claim C3, witness for the amended theorem at the concrete state
`exState` with a successfully returning sink. -/
theorem handleSubmitFeedbackLedgerContractWitness :
    (handleSubmitFeedback exSinkOk exState).calls = [exState.feedbackData] ∧
    (handleSubmitFeedback exSinkOk exState).state.feedbackData = [] :=
  ⟨(handleSubmitFeedbackLedgerContract exState exSinkOk (by decide)).1,
   (handleSubmitFeedbackLedgerContract exState exSinkOk (by decide)).2.2 true rfl⟩

/-- Claim C4. The claim states that dragging the end handle rightward by
three characters grows the committed span's end offset by 3 and its text by
the three trailing characters. The code does the opposite: `handleDrag`
computes the new end offset as `text.length - charDiff` (clamped to the
original length, so the text can never grow), and `handleDragEnd` commits
`relative_end = relative_start + newEndOffset`. For `exDragSpan` (text
`hello world`, offsets 5-16) and a 24px rightward drag (3 characters), the
committed end offset is 13 = 16 - 3, not 19 = 16 + 3, and the text shrinks
to `hello wo`. -/
theorem endHandleRightwardDragShrinksSpan :
    exDragCommitted.relative_end = some 13 ∧
    exDragCommitted.text = some "hello wo" ∧
    ¬ exDragCommitted.relative_end = some 19 := by
  decide

/-- Claim C7. Re-running the HTML re-render effect on the same prediction
and document yields the identical container contents and the identical set
of highlighted ranges as running it once: the effect first clears the
container (`innerHTML = ''`), so its result does not depend on the previous
state. -/
theorem htmlRerenderIdempotent (evalRoot evalDoc : String → Option Nat)
    (getText : Nat → Option String) (content : List HNode) (spans : List SpanObj)
    (st : RenderedDoc) :
    htmlRerenderEffect evalRoot evalDoc getText content spans
        (htmlRerenderEffect evalRoot evalDoc getText content spans st) =
      htmlRerenderEffect evalRoot evalDoc getText content spans st ∧
    (htmlRerenderEffect evalRoot evalDoc getText content spans
        (htmlRerenderEffect evalRoot evalDoc getText content spans st)).highlights =
      (htmlRerenderEffect evalRoot evalDoc getText content spans st).highlights :=
  ⟨rfl, rfl⟩

/-- Claim C10, counterexample. The claim states the clickability flag is
false when the viewer is read-only or not in edit mode. In
`createSpanElement` the flag is `!editMode ? 'true' : 'false'` and
`readOnly` is never consulted: outside edit mode the flag is `true` even
for a read-only viewer, where the spec's flag would be false. -/
theorem clickableFlagReadOnlyCounter :
    (createSpanElement false "highlighted" false "span-0" "intent" none).clickable = "true" ∧
    specClickableFlag true false = false := by
  exact ⟨rfl, rfl⟩

/-- Claim C10, amended: the clickability flag of an element produced by
`createSpanElement` is determined solely by the captured edit-mode value —
`true` exactly when not in edit mode; read-only plays no role in the flag
(the click handler enforces read-only separately). -/
theorem clickableFlagEqNotEditMode (editMode : Bool) (text : String) (isActive : Bool)
    (spanId spanType : String) (fieldName : Option String) :
    (createSpanElement editMode text isActive spanId spanType fieldName).clickable =
      (if editMode then "false" else "true") := by
  cases editMode <;> rfl

/-- Claim C5, counterexample. The claim states the resolver tries the
captured path verbatim first, then root-stripped, then body-stripped. In
`applyHighlights` the verbatim path is pushed last and the body-stripped
variant first: in an environment where both the verbatim path and the
body-stripped path match the rendering root (nodes 1 and 2), the code
resolves to node 2 while the spec's stated order would resolve to node 1. -/
theorem resolverOrderDiffersFromSpec :
    resolveSpanNode exEvalRoot exEvalDoc "/html/body/p[1]" "x" = some 2 ∧
    specMatchingOrderResolve exEvalRoot exEvalDoc "/html/body/p[1]" = some 1 ∧
    resolveSpanNode exEvalRoot exEvalDoc "/html/body/p[1]" "x" ≠
      specMatchingOrderResolve exEvalRoot exEvalDoc "/html/body/p[1]" := by
  decide

/-- Claim C5, amended: for a captured path starting with `/html/body` and
not mentioning a table, the resolver tries, in order, the body-stripped
variant, the `/html`-stripped variant, the simplified relative variant, and
the verbatim captured path last (de-duplicated), evaluating each candidate
against the rendering root and then against the whole document and
short-circuiting on the first match. -/
theorem xpathResolutionActualOrder (evalRoot evalDoc : String → Option Nat)
    (xpath t : String) (h1 : startsWithL xpath "/html/body" = true)
    (h2 : strContains xpath "table" = false) :
    resolveSpanNode evalRoot evalDoc xpath t =
      tryXPathList evalRoot evalDoc
        (dedupStr [dropStr xpath 10, dropStr xpath 5, simplifiedOf xpath, xpath]) := by
  have h15 : startsWithL xpath "/html" = true := startsWithHtmlOfHtmlBody xpath h1
  simp [resolveSpanNode, xpathVariations, tableVariantsOf, h1, h2, h15]

/-- Claim C5, witness for the amended theorem at the concrete path
`/html/body/p[1]` in the environment `exEvalRoot`/`exEvalDoc`. -/
theorem xpathResolutionActualOrderWitness :
    resolveSpanNode exEvalRoot exEvalDoc "/html/body/p[1]" "x" =
      tryXPathList exEvalRoot exEvalDoc
        (dedupStr ["/p[1]", "/body/p[1]", simplifiedOf "/html/body/p[1]", "/html/body/p[1]"]) :=
  xpathResolutionActualOrder exEvalRoot exEvalDoc "/html/body/p[1]" "x" (by decide) (by decide)

/-- Claim C6, counterexample. The claim states the locator returns exactly
the declared range `[relativeStart, relativeEnd)` even when the declared
text also occurs earlier in the node's text. The code overrides the
declared offsets with the first verbatim occurrence: for text content
`ab ab` and a span declaring `ab` at offsets 3-5, the locator returns the
range 0-2, not 3-5. -/
theorem locatorFirstOccurrenceOverridesOffsets :
    locateRange "ab ab" exLocSpan = some (0, 2) ∧
    locateRange "ab ab" exLocSpan ≠ some (3, 5) := by
  decide

/-- Claim C6, amended: whenever the span carries a non-empty declared text
that occurs in the node's text content, the locator returns the first
occurrence's exact bounds, regardless of the declared offsets; the declared
range is returned exactly when that first occurrence starts at
`relativeStart` and spans `relativeEnd - relativeStart` characters. -/
theorem locateRangeFirstOccurrence (tc : String) (sp : SpanObj) (t : String) (n : Nat)
    (ht : sp.text = some t) (hlen : 0 < t.length)
    (hidx : indexOfL t.data tc.data = some n) :
    locateRange tc sp = some ((n : Int), (n : Int) + (t.length : Int)) := by
  have hne : ¬ t = "" := by
    intro h
    subst h
    exact absurd hlen (by decide)
  have hb : n + t.data.length ≤ tc.data.length := indexOfLBound t.data tc.data n hidx
  have hlen' : 0 < t.data.length := hlen
  have hguard : ¬ (((n : Int)) ≥ (n : Int) + (t.length : Int) ∨
      (n : Int) + (t.length : Int) ≤ 0 ∨
      (n : Int) + (t.length : Int) > (tc.length : Int)) := by
    simp only [String.length]
    omega
  simp only [locateRange, textSearchAdjust, ht, if_neg hne, hidx]
  rw [if_neg hguard]

/-- Claim C6, witness for the amended theorem: a span declaring `world` with
offsets 0-3 against the text `hello world` is located at the first
occurrence 6-11. -/
theorem locateRangeFirstOccurrenceWitness :
    locateRange "hello world" exLocSpanW = some (6, 11) :=
  locateRangeFirstOccurrence "hello world" exLocSpanW "world" 6 rfl (by decide) (by decide)

theorem applySpanEditStoreShape (st : Store) (fb : Ledger) (pred : Prediction)
    (a h : Option SpanObj) (html : Bool) (ts : String) :
    (applySpanEdit st fb pred a h html ts).1 = st ∨
    ∃ x, (applySpanEdit st fb pred a h html ts).1 = st ++ [x] := by
  unfold applySpanEdit
  cases h with
  | none => exact Or.inl rfl
  | some hv =>
    cases a with
    | none => exact Or.inr ⟨_, rfl⟩
    | some av =>
      dsimp only
      split
      · exact Or.inr ⟨_, rfl⟩
      · exact Or.inr ⟨_, rfl⟩

/-- Claim C8. Every path through `applySpanEdit` (in-place update of an
existing correction, append of a correction with a back-reference, append
of a net-new span) leaves every pre-existing span object untouched: updates
allocate a fresh merged object and replace the array slot rather than
writing into the shared object, so in the store model every reference below
the original store length still yields the same object — in particular
every span object of the prediction's own evidence list is unchanged, and
the prediction's reference list itself is never written. -/
theorem applySpanEditPreservesStore (st : Store) (fb : Ledger) (pred : Prediction)
    (a h : Option SpanObj) (html : Bool) (ts : String) (j : Nat) (hj : j < st.length) :
    ((applySpanEdit st fb pred a h html ts).1)[j]? = st[j]? := by
  rcases applySpanEditStoreShape st fb pred a h html ts with hs | ⟨x, hs⟩
  · rw [hs]
  · rw [hs]
    exact List.getElem?_append_left hj

/-- Claim C8, witness: the first edit of the worked example leaves the
original span object at reference 0 unchanged. -/
theorem applySpanEditPreservesStoreWitness :
    (0 : Nat) < ([exSpanS] : Store).length ∧
    ((applySpanEdit [exSpanS] [] exPred (some exSpanS) (some exEdit1) true "t1").1)[0]? =
      ([exSpanS] : Store)[0]? :=
  ⟨by decide,
   applySpanEditPreservesStore [exSpanS] [] exPred (some exSpanS) (some exEdit1) true "t1" 0
     (by decide)⟩

/-- Claim C9, counterexample. The claim states the active span is cleared
by cancelling an in-progress edit. `cancelSpanEdit` resets edit mode, the
pending candidate and selection mode but never touches `activeSpan`: from
`exState` (active span `exSpanS`), the post-cancel active span is still
`exSpanS`. -/
theorem cancelSpanEditKeepsActiveSpan :
    (cancelSpanEdit exState).activeSpan = some exSpanS ∧
    (cancelSpanEdit exState).activeSpan ≠ none := by
  decide

/-- Claim C9, amended: the active span (a single optional value, so at most
one at any time) is cleared by selecting a prediction and by a submit whose
sink call returns on a non-empty ledger; `cancelSpanEdit` leaves the active
span exactly as it was. -/
theorem activeSpanClearingBehavior (st : VisualizerState) (p : Prediction)
    (sink : Ledger → SinkBehavior) :
    (handlePredictionSelect st p).activeSpan = none ∧
    (∀ b, st.feedbackData ≠ [] → sink st.feedbackData = SinkBehavior.returns b →
      (handleSubmitFeedback sink st).state.activeSpan = none) ∧
    (cancelSpanEdit st).activeSpan = st.activeSpan := by
  refine ⟨rfl, ?_, rfl⟩
  intro b hne hs
  have hempty : st.feedbackData.isEmpty = false := by
    cases h : st.feedbackData with
    | nil => exact absurd h hne
    | cons a l => rfl
  simp [handleSubmitFeedback, hempty, hs]

/-- Claim C9, witness for the amended theorem at the concrete state
`exState` with a successfully returning sink. -/
theorem activeSpanClearingBehaviorWitness :
    (handlePredictionSelect exState exPred).activeSpan = none ∧
    (handleSubmitFeedback exSinkOk exState).state.activeSpan = none ∧
    (cancelSpanEdit exState).activeSpan = exState.activeSpan :=
  ⟨(activeSpanClearingBehavior exState exPred exSinkOk).1,
   (activeSpanClearingBehavior exState exPred exSinkOk).2.1 true (by decide) rfl,
   (activeSpanClearingBehavior exState exPred exSinkOk).2.2⟩
